import Mathlib

/-!
Verification of the flight_replay example (`examples/flight_replay/flight_replay.py`).

The script is embedded shallowly:
* decoded `GLOBAL_POSITION_INT` telemetry messages become the structure
  `GlobalPositionInt`, and the log-reader's keep/skip loop becomes
  `filter_position_messages`;
* the downsampling step of `position_messages_from_tlog` becomes
  `sample_messages`, with Python's `xrange(0, n, step)` embedded as `xrange`;
* the mission-building loop becomes `buildCommands` over the `Command`
  structure (MAVLink frame and command ids kept as their numeric values);
* `get_distance_metres` and `distance_to_current_waypoint` are embedded over
  real-valued locations (Python floats are modelled as exact reals/rationals);
* the script's straight-line main flow, up to and including the mission
  upload, becomes the event trace `mainTrace`, with `start_default_sitl`
  embedded separately;
* the busy-poll convergence loops and the 60-second monitoring loop become
  `pollLoopExitsWithin` and `monitorEvents` over abstract telemetry streams.
-/

/-- A decoded `GLOBAL_POSITION_INT` message: latitude and longitude in
fixed-point degrees (×1e7), plus the recorded altitude. -/
structure GlobalPositionInt where
  lat : Int
  lon : Int
  alt : Int
deriving DecidableEq, Repr

/-- The log-reader filter inside `position_messages_from_tlog`:
`if m.lat == 0: continue` — messages with zero latitude are skipped,
all others are appended in arrival order. -/
def filter_position_messages (ms : List GlobalPositionInt) : List GlobalPositionInt :=
  ms.filter (fun m => decide (m.lat ≠ 0))

/-- Iteration worker for `xrange`: one fuel unit per loop entry. For a
positive `step` the initial fuel `stop - start` is never exhausted before
the bound check fails, so this is exactly the Python loop. -/
def xrangeGo (stop step : Nat) : Nat → Nat → List Nat
  | 0, _ => []
  | fuel + 1, start =>
    if start < stop then start :: xrangeGo stop step fuel (start + step) else []

/-- Python's `xrange(start, stop, step)` for natural arguments and a
positive step: the indices `start, start+step, …` strictly below `stop`. -/
def xrange (start stop step : Nat) : List Nat :=
  xrangeGo stop step (stop - start) start

/-- `max_points = 99`, the vehicle-imposed ceiling on waypoint count. -/
def max_points : Nat := 99

/-- The downsampling step of `position_messages_from_tlog`: when more than
`max_points` messages survive the filter, keep `messages[i]` for
`i in xrange(0, num_points, step)` with
`step = int(math.ceil(float(num_points) / max_points))`. -/
def sample_messages {α : Type} (messages : List α) : List α :=
  let num_points := messages.length
  if num_points > max_points then
    let step := Nat.ceil ((num_points : ℚ) / (max_points : ℚ))
    (xrange 0 num_points step).filterMap (fun i => messages[i]?)
  else
    messages

/-- `position_messages_from_tlog`, acting on the already-decoded message
stream: filter out no-fix messages, then downsample. -/
def position_messages_from_tlog (raw : List GlobalPositionInt) : List GlobalPositionInt :=
  sample_messages (filter_position_messages raw)

/-- Numeric value of `mavutil.mavlink.MAV_FRAME_GLOBAL_RELATIVE_ALT`. -/
def MAV_FRAME_GLOBAL_RELATIVE_ALT : Nat := 3

/-- Numeric value of `mavutil.mavlink.MAV_CMD_NAV_WAYPOINT`. -/
def MAV_CMD_NAV_WAYPOINT : Nat := 16

/-- A dronekit `Command`, with the fields in the order of the constructor
call in the script: target system/component, sequence, frame, command id,
the six parameter slots (`current`, `autocontinue`, `param1`–`param4`), and
the coordinates `x` (latitude), `y` (longitude), `z` (altitude). -/
structure Command where
  target_system : Nat
  target_component : Nat
  seq : Nat
  frame : Nat
  command : Nat
  current : Nat
  autocontinue : Nat
  param1 : ℚ
  param2 : ℚ
  param3 : ℚ
  param4 : ℚ
  x : ℚ
  y : ℚ
  z : ℚ
deriving DecidableEq, Repr

/-- The body of the mission-building loop: for each kept message, one
`Command(0, 0, 0, MAV_FRAME_GLOBAL_RELATIVE_ALT, MAV_CMD_NAV_WAYPOINT,
0, 0, 0, 0, 0, 0, lat/1.0e7, lon/1.0e7, 30.0)`. -/
def commandOfMessage (pt : GlobalPositionInt) : Command :=
  { target_system := 0
    target_component := 0
    seq := 0
    frame := MAV_FRAME_GLOBAL_RELATIVE_ALT
    command := MAV_CMD_NAV_WAYPOINT
    current := 0
    autocontinue := 0
    param1 := 0
    param2 := 0
    param3 := 0
    param4 := 0
    x := (pt.lat : ℚ) / 1.0e7
    y := (pt.lon : ℚ) / 1.0e7
    z := 30.0 }

/-- The mission-building loop `for i in xrange(0, len(messages))`: one
command per message, in order. -/
def buildCommands (messages : List GlobalPositionInt) : List Command :=
  messages.map commandOfMessage

/-- A `LocationGlobal` / `LocationGlobalRelative` value: latitude, longitude
and altitude as (exact) reals standing for the Python floats. -/
structure LocationGlobal where
  lat : ℝ
  lon : ℝ
  alt : ℝ

/-- `get_distance_metres`: the flat-earth approximation
`sqrt(dlat*dlat + dlong*dlong) * 1.113195e5`. -/
noncomputable def get_distance_metres (aLocation1 aLocation2 : LocationGlobal) : ℝ :=
  let dlat := aLocation2.lat - aLocation1.lat
  let dlong := aLocation2.lon - aLocation1.lon
  Real.sqrt (dlat * dlat + dlong * dlong) * 1.113195e5

/-- The target location built by `distance_to_current_waypoint` from a
mission item: `LocationGlobalRelative(missionitem.x, missionitem.y,
missionitem.z)`. -/
noncomputable def commandLocation (missionitem : Command) : LocationGlobal :=
  { lat := (missionitem.x : ℝ), lon := (missionitem.y : ℝ), alt := (missionitem.z : ℝ) }

/-- `distance_to_current_waypoint`, with the vehicle state passed
explicitly: the downloaded command list, the vehicle's current global-frame
position, and the mission cursor `vehicle.commands.next`. Returns `none`
for cursor 0; otherwise looks up the command at `cursor - 1` (the lookup is
partial: indexing out of range is a fault in the script, embedded as the
`none` of the inner lookup never being taken on in-range cursors). -/
noncomputable def distance_to_current_waypoint (cmds : List Command)
    (position : LocationGlobal) (nextwaypoint : Nat) : Option ℝ :=
  if nextwaypoint = 0 then
    none
  else
    (cmds[nextwaypoint - 1]?).map
      (fun missionitem => get_distance_metres position (commandLocation missionitem))

/-- `start_default_sitl(lat, lon)`: exits with code 1 when exactly one of
`lat`, `lon` is supplied; otherwise returns the home position passed to the
simulator (both coordinates, or none) and the connection string. -/
def start_default_sitl (lat lon : Option ℚ) : Except Nat (Option (ℚ × ℚ) × String) :=
  if (lat.isSome && lon.isNone) || (lat.isNone && lon.isSome) then
    Except.error 1
  else
    match lat, lon with
    | some la, some lo => Except.ok (some (la, lo), "tcp:127.0.0.1:5760")
    | _, _ => Except.ok (none, "tcp:127.0.0.1:5760")

/-- Observable interactions of the script's main flow with the Vehicle
Link and the simulator process. -/
inductive LinkEvent where
  | startSitl (home : Option (ℚ × ℚ))
  | connect (target : String)
  | clearMission
  | addCommand (c : Command)
  | upload
  | exitProcess (code : Nat)
deriving DecidableEq, Repr

/-- The script's straight-line main flow up to and including the mission
upload, as an event trace: generate waypoints; if none were found, exit
before any link contact; otherwise start SITL (when no `--connect` target
was given) with the first message's coordinates divided by `1.0e7` as home,
connect, clear the mission, add one command per message, and upload. -/
def mainTrace (connectArg : Option String) (raw : List GlobalPositionInt) : List LinkEvent :=
  match position_messages_from_tlog raw with
  | [] => []
  | m0 :: rest =>
    let messages := m0 :: rest
    let pre : List LinkEvent :=
      match connectArg with
      | some cs => [LinkEvent.connect cs]
      | none =>
        let start_lat := (m0.lat : ℚ) / 1.0e7
        let start_lon := (m0.lon : ℚ) / 1.0e7
        match start_default_sitl (some start_lat) (some start_lon) with
        | Except.error code => [LinkEvent.exitProcess code]
        | Except.ok (home, cs) => [LinkEvent.startSitl home, LinkEvent.connect cs]
    pre ++ [LinkEvent.clearMission]
      ++ (buildCommands messages).map LinkEvent.addCommand
      ++ [LinkEvent.upload]

/-- `aTargetAltitude = 30.0`, the takeoff target altitude. -/
def aTargetAltitude : ℚ := 30.0

/-- Telemetry as the poll loops observe it, one reading per poll. -/
structure VehicleTelemetry where
  mode : Nat → String
  armed : Nat → Bool
  relAlt : Nat → ℚ
  cursorAt : Nat → Nat

/-- Exit condition of `while (vehicle.mode.name != "GUIDED")`. -/
def guidedOk (tel : VehicleTelemetry) (i : Nat) : Bool :=
  tel.mode i == "GUIDED"

/-- Exit condition of `while not vehicle.armed`. -/
def armedOk (tel : VehicleTelemetry) (i : Nat) : Bool :=
  tel.armed i

/-- Exit condition of the altitude wait:
`vehicle.location.global_relative_frame.alt >= aTargetAltitude*0.95`. -/
def altOk (tel : VehicleTelemetry) (i : Nat) : Bool :=
  decide (tel.relAlt i ≥ aTargetAltitude * 0.95)

/-- Exit condition of `while (vehicle.mode.name != "AUTO")`. -/
def autoOk (tel : VehicleTelemetry) (i : Nat) : Bool :=
  tel.mode i == "AUTO"

/-- Exit condition of `while (vehicle.mode.name != "RTL")`. -/
def rtlOk (tel : VehicleTelemetry) (i : Nat) : Bool :=
  tel.mode i == "RTL"

/-- Whether an (untimed) request-and-poll loop has exited within its first
`n` polls: true exactly when some poll among `0, …, n-1` observed its exit
condition. These loops have no timeout in the script. -/
def pollLoopExitsWithin (ok : Nat → Bool) (n : Nat) : Bool :=
  (List.range n).any ok

/-- Observable steps of the 60-second monitoring loop and the transition
that follows it. -/
inductive CtrlEvent where
  | poll (t : Nat)
  | exitMonitor (t : Nat)
  | requestRTL
deriving DecidableEq, Repr

/-- The monitoring loop `while time.time() - time_start < 60`, polled once
per time unit starting at elapsed time `t`: at each poll read the cursor;
if it equals the mission length, break; otherwise sleep one unit. In either
case the loop is followed by the request for RTL mode. -/
def monitorGo (cursor : Nat → Nat) (missionLen : Nat) : Nat → Nat → List CtrlEvent
  | 0, t => [CtrlEvent.exitMonitor t, CtrlEvent.requestRTL]
  | fuel + 1, t =>
    if cursor t = missionLen then
      [CtrlEvent.exitMonitor t, CtrlEvent.requestRTL]
    else
      CtrlEvent.poll t :: monitorGo cursor missionLen fuel (t + 1)

/-- The full monitoring phase: the loop entered at elapsed time 0 with the
60-unit budget, followed by the RTL request. -/
def monitorEvents (cursor : Nat → Nat) (missionLen : Nat) : List CtrlEvent :=
  monitorGo cursor missionLen 60 0

/-! ### Arithmetic helpers for the stride computation -/

/-- `int(math.ceil(float(n) / 99))` as natural-number ceiling division. -/
lemma natCeil_div_99 (n : Nat) :
    Nat.ceil ((n : ℚ) / (99 : ℚ)) = (n + 98) / 99 := by
  apply le_antisymm
  · rw [Nat.ceil_le, div_le_iff₀ (by norm_num : (0 : ℚ) < 99)]
    have h : n ≤ 99 * ((n + 98) / 99) := by omega
    have h2 : (n : ℚ) ≤ ((99 * ((n + 98) / 99) : Nat) : ℚ) := by exact_mod_cast h
    push_cast at h2
    linarith
  · rcases Nat.eq_zero_or_pos ((n + 98) / 99) with h0 | h0
    · simp [h0]
    · have hlt : (n + 98) / 99 - 1 < Nat.ceil ((n : ℚ) / (99 : ℚ)) := by
        rw [Nat.lt_ceil, lt_div_iff₀ (by norm_num : (0 : ℚ) < 99)]
        have h : ((n + 98) / 99 - 1) * 99 < n := by omega
        exact_mod_cast h
      omega

/-- One unrolling of ceiling division: for `0 < d`,
`⌈d/step⌉ = ⌈(d-step)/step⌉ + 1` (natural subtraction). -/
lemma div_step_succ (d step : Nat) (hs : 0 < step) (hd : 0 < d) :
    (d + step - 1) / step = (d - step + step - 1) / step + 1 := by
  rcases le_or_lt step d with h | h
  · have h1 : d - step + step - 1 = d - 1 := by omega
    have h2 : d + step - 1 = (d - 1) + step := by omega
    rw [h1, h2, Nat.add_div_right _ hs]
  · have h1 : d - step = 0 := by omega
    rw [h1]
    have h2 : (0 + step - 1) / step = 0 := Nat.div_eq_of_lt (by omega)
    rw [h2]
    have h3 : (d + step - 1) / step < 2 :=
      (Nat.div_lt_iff_lt_mul hs).mpr (by omega)
    have h4 : 1 ≤ (d + step - 1) / step :=
      (Nat.le_div_iff_mul_le hs).mpr (by omega)
    omega

/-- The ceiling quotient covers: `n ≤ ⌈n/step⌉ * step`. -/
lemma le_ceilDiv_mul (n step : Nat) (hs : 0 < step) :
    n ≤ ((n + step - 1) / step) * step := by
  have h2 : n + step - 1 < (((n + step - 1) / step) + 1) * step :=
    (Nat.div_lt_iff_lt_mul hs).mp (Nat.lt_succ_self _)
  rw [Nat.add_mul, Nat.one_mul] at h2
  generalize ((n + step - 1) / step) * step = m at h2 ⊢
  omega

/-- Indices strictly below the ceiling quotient stay in range after
scaling by the stride. -/
lemma mul_lt_of_lt_ceilDiv (n step j : Nat) (hs : 0 < step)
    (hj : j < (n + step - 1) / step) : j * step < n := by
  have h1 : ((n + step - 1) / step) * step ≤ n + step - 1 :=
    Nat.div_mul_le_self _ _
  have h2 : (j + 1) * step ≤ ((n + step - 1) / step) * step :=
    Nat.mul_le_mul_right step hj
  rw [Nat.add_mul, Nat.one_mul] at h2
  generalize hja : j * step = a at h2
  generalize ((n + step - 1) / step) * step = b at h1 h2
  omega

/-- The ceiling quotient of `n` by `s` is at most 99 when `n ≤ 99 s`. -/
lemma ceilDiv_le_99 (n s : Nat) (hs : 0 < s) (h : n ≤ 99 * s) :
    (n + s - 1) / s ≤ 99 := by
  have h2 : (n + s - 1) / s < 100 :=
    (Nat.div_lt_iff_lt_mul hs).mpr (by omega)
  omega

/-! ### Structure of `xrange` and of index-based `filterMap` -/

/-- `xrangeGo` with enough fuel is the first `⌈(stop-start)/step⌉`
multiples of `step` shifted by `start`. -/
lemma xrangeGo_eq_map (stop step : Nat) (hs : 0 < step) :
    ∀ fuel start, stop - start ≤ fuel →
      xrangeGo stop step fuel start =
        (List.range ((stop - start + step - 1) / step)).map
          (fun j => start + j * step) := by
  intro fuel
  induction fuel with
  | zero =>
    intro start h
    have h0 : stop - start = 0 := by omega
    rw [xrangeGo, h0]
    have h1 : (0 + step - 1) / step = 0 := Nat.div_eq_of_lt (by omega)
    rw [h1, List.range_zero, List.map_nil]
  | succ fuel ih =>
    intro start h
    by_cases hlt : start < stop
    · rw [xrangeGo, if_pos hlt, ih (start + step) (by omega)]
      have hd : stop - (start + step) = stop - start - step := by omega
      have hk : (stop - start + step - 1) / step
          = (stop - start - step + step - 1) / step + 1 :=
        div_step_succ (stop - start) step hs (by omega)
      rw [hd, hk, List.range_succ_eq_map, List.map_cons, List.map_map]
      refine List.cons_eq_cons.mpr ⟨by simp, ?_⟩
      apply List.map_congr_left
      intro j hj
      simp only [Function.comp_apply, Nat.succ_mul]
      ring
    · rw [xrangeGo, if_neg hlt]
      have h0 : stop - start = 0 := by omega
      rw [h0]
      have h1 : (0 + step - 1) / step = 0 := Nat.div_eq_of_lt (by omega)
      rw [h1, List.range_zero, List.map_nil]

/-- `xrange 0 n step` enumerates the multiples `j * step` for
`j < ⌈n/step⌉`. -/
lemma xrange_zero_eq_map (n step : Nat) (hs : 0 < step) :
    xrange 0 n step =
      (List.range ((n + step - 1) / step)).map (fun j => j * step) := by
  rw [xrange, xrangeGo_eq_map n step hs (n - 0) 0 (by omega)]
  simp

/-- When every index is in range, `filterMap` over lookups loses nothing. -/
lemma filterMap_getElem_length {α : Type} (messages : List α) :
    ∀ idxs : List Nat, (∀ i ∈ idxs, i < messages.length) →
      (idxs.filterMap (fun i => messages[i]?)).length = idxs.length := by
  intro idxs
  induction idxs with
  | nil => intro _; rfl
  | cons a idxs ih =>
    intro h
    have ha : a < messages.length := h a (List.mem_cons_self a idxs)
    rw [List.filterMap_cons, List.getElem?_eq_getElem ha]
    have ih2 := ih (fun i hi => h i (List.mem_cons_of_mem a hi))
    simp [ih2]

/-- When every index is in range, the `j`-th element of the `filterMap`
over lookups is the lookup at the `j`-th index. -/
lemma filterMap_getElem_getElem? {α : Type} (messages : List α) :
    ∀ idxs : List Nat, (∀ i ∈ idxs, i < messages.length) →
      ∀ j : Nat, (idxs.filterMap (fun i => messages[i]?))[j]?
        = Option.bind idxs[j]? (fun i => messages[i]?) := by
  intro idxs
  induction idxs with
  | nil => intro _ j; simp
  | cons a idxs ih =>
    intro h j
    have ha : a < messages.length := h a (List.mem_cons_self a idxs)
    rw [List.filterMap_cons, List.getElem?_eq_getElem ha]
    have ih2 := ih (fun i hi => h i (List.mem_cons_of_mem a hi))
    cases j with
    | zero => simp [List.getElem?_eq_getElem ha]
    | succ j => simp [ih2 j]

/-- Unfolding `sample_messages` in the oversized case, with the stride
written as natural ceiling division. -/
lemma sample_messages_eq_gt {α : Type} (messages : List α)
    (h : messages.length > 99) :
    sample_messages messages =
      (xrange 0 messages.length ((messages.length + 98) / 99)).filterMap
        (fun i => messages[i]?) := by
  have hmax : max_points = 99 := rfl
  simp only [sample_messages, hmax]
  rw [if_pos h]
  have hcast : ((99 : Nat) : ℚ) = (99 : ℚ) := by norm_num
  rw [hcast, natCeil_div_99]

/-- Full behaviour of `sample_messages` on oversized inputs, with
`step = ⌈n/99⌉`: the output has `⌈n/step⌉` elements, the `j`-th being the
input element at index `j * step`. -/
lemma sample_messages_gt_facts {α : Type} (messages : List α)
    (h : messages.length > 99) :
    ((sample_messages messages).length
        = (messages.length + (messages.length + 98) / 99 - 1)
            / ((messages.length + 98) / 99))
      ∧ (∀ j : Nat, (sample_messages messages)[j]?
          = messages[j * ((messages.length + 98) / 99)]?) := by
  set n := messages.length with hn
  set s := (n + 98) / 99 with hsdef
  have hs : 0 < s := by omega
  have hn0 : 0 < n := by omega
  set k := (n + s - 1) / s with hkdef
  have hxr : xrange 0 n s = (List.range k).map (fun j => j * s) :=
    xrange_zero_eq_map n s hs
  have hrange : ∀ i ∈ (List.range k).map (fun j => j * s), i < messages.length := by
    intro i hi
    rcases List.mem_map.mp hi with ⟨j, hj, rfl⟩
    exact mul_lt_of_lt_ceilDiv n s j hs (List.mem_range.mp hj)
  constructor
  · rw [sample_messages_eq_gt messages h, hxr,
      filterMap_getElem_length messages _ hrange, List.length_map,
      List.length_range]
  · intro j
    rw [sample_messages_eq_gt messages h, hxr,
      filterMap_getElem_getElem? messages _ hrange j]
    by_cases hj : j < k
    · rw [List.getElem?_map, List.getElem?_range hj]
      rfl
    · have h1 : (List.range k).length ≤ j := by
        rw [List.length_range]; omega
      rw [List.getElem?_map, List.getElem?_eq_none h1]
      have h2 : messages.length ≤ j * s := by
        have h3 : n ≤ k * s := le_ceilDiv_mul n s hs
        have h4 : k * s ≤ j * s := Nat.mul_le_mul_right s (by omega)
        omega
      rw [List.getElem?_eq_none h2]
      rfl

/-- **C1**: for every input list of `n` records with `n > 99`, the sampler
computes `stride = ⌈n/99⌉` (a positive stride) and keeps exactly the records
at indices `0, stride, 2·stride, …` below `n` in original order: the `j`-th
output is the input at index `j·stride` (and nothing else is emitted), the
output length is `⌈n/stride⌉ ≤ 99`, and the first output is the first input
record. -/
theorem sampler_downsample_spec {α : Type} (messages : List α)
    (h : messages.length > 99) :
    0 < Nat.ceil ((messages.length : ℚ) / 99)
      ∧ (sample_messages messages).length
          = (messages.length + Nat.ceil ((messages.length : ℚ) / 99) - 1)
              / Nat.ceil ((messages.length : ℚ) / 99)
      ∧ (sample_messages messages).length ≤ 99
      ∧ (∀ j : Nat, (sample_messages messages)[j]?
          = messages[j * Nat.ceil ((messages.length : ℚ) / 99)]?)
      ∧ (sample_messages messages).head? = messages.head? := by
  rw [natCeil_div_99]
  set n := messages.length with hn
  set s := (n + 98) / 99 with hsdef
  have hs : 0 < s := by omega
  obtain ⟨hlen, hidx⟩ := sample_messages_gt_facts messages h
  have hk : (sample_messages messages).length ≤ 99 := by
    rw [hlen]
    exact ceilDiv_le_99 n s hs (by omega)
  refine ⟨hs, hlen, hk, hidx, ?_⟩
  rw [List.head?_eq_getElem?, List.head?_eq_getElem?]
  have h0 := hidx 0
  simpa using h0

/-- Closed instance of `sampler_downsample_spec` at the 150-record input
`List.range 150` (stride 2, 75 outputs): hypothesis discharged concretely,
and two consequences evaluated. -/
theorem sampler_downsample_spec_witness :
    (sample_messages (List.range 150)).length ≤ 99
      ∧ (sample_messages (List.range 150))[1]? = (List.range 150)[2]?
      ∧ (sample_messages (List.range 150)).head? = (List.range 150).head? := by
  obtain ⟨-, -, h99, hj, hhead⟩ :=
    sampler_downsample_spec (List.range 150) (by simp)
  refine ⟨h99, ?_, hhead⟩
  have h1 := hj 1
  have hstride : Nat.ceil (((List.range 150).length : ℚ) / 99) = 2 := by
    rw [natCeil_div_99]
    simp
  rw [hstride] at h1
  simpa using h1

/-- **C2**: for every input list of `n ≤ 99` records, the sampler returns
its input unchanged. -/
theorem sampler_keeps_small_input {α : Type} (messages : List α)
    (h : messages.length ≤ 99) :
    sample_messages messages = messages := by
  simp only [sample_messages, max_points]
  rw [if_neg (by omega)]

/-- Closed instance of `sampler_keeps_small_input` on a two-record list. -/
theorem sampler_keeps_small_input_witness :
    ([10, 20] : List Nat).length ≤ 99
      ∧ sample_messages ([10, 20] : List Nat) = [10, 20] :=
  ⟨by decide, sampler_keeps_small_input [10, 20] (by decide)⟩

/-- **C3**: the log reader keeps exactly the records with nonzero latitude,
verbatim and in arrival order: the output is a sublist of the input (order
and contents preserved), membership is equivalent to membership with
nonzero latitude, every record with nonzero latitude keeps its full
multiplicity (so no record is dropped for any other field value), and
records with latitude 0 never appear. -/
theorem logreader_filter_spec (ms : List GlobalPositionInt) :
    (filter_position_messages ms).Sublist ms
      ∧ (∀ m : GlobalPositionInt,
          m ∈ filter_position_messages ms ↔ (m ∈ ms ∧ m.lat ≠ 0))
      ∧ (∀ m : GlobalPositionInt, m.lat ≠ 0 →
          (filter_position_messages ms).count m = ms.count m)
      ∧ (∀ m : GlobalPositionInt, m.lat = 0 →
          (filter_position_messages ms).count m = 0) := by
  refine ⟨List.filter_sublist _, ?_, ?_, ?_⟩
  · intro m
    simp [filter_position_messages, List.mem_filter]
  · intro m hm
    rw [filter_position_messages, List.count_filter (by simp [hm])]
  · intro m hm
    rw [filter_position_messages, List.count_eq_zero]
    intro hmem
    have := (List.mem_filter.mp hmem).2
    simp [hm] at this

/-- Closed instance of `logreader_filter_spec`: a record with longitude 0
but nonzero latitude is kept with its multiplicity, and a zero-latitude
record is dropped. -/
theorem logreader_filter_spec_witness :
    (filter_position_messages
          [⟨0, 5, 1⟩, ⟨10, 0, 2⟩, ⟨0, 0, 3⟩]).count ⟨10, 0, 2⟩
        = ([⟨0, 5, 1⟩, ⟨10, 0, 2⟩, ⟨0, 0, 3⟩] :
            List GlobalPositionInt).count ⟨10, 0, 2⟩
      ∧ (filter_position_messages
          [⟨0, 5, 1⟩, ⟨10, 0, 2⟩, ⟨0, 0, 3⟩]).count ⟨0, 5, 1⟩ = 0 := by
  obtain ⟨-, -, hkeep, hdrop⟩ :=
    logreader_filter_spec [⟨0, 5, 1⟩, ⟨10, 0, 2⟩, ⟨0, 0, 3⟩]
  exact ⟨hkeep ⟨10, 0, 2⟩ (by decide), hdrop ⟨0, 5, 1⟩ (by decide)⟩

/-- **C4**: for every non-empty message list, the mission-build loop emits
one command per message in order, and each command carries
latitude `lat/1e7`, longitude `lon/1e7`, the fixed cruise altitude `30.0`
(never the recorded altitude), the global-relative-altitude frame, and the
navigate-to-waypoint command id. -/
theorem mission_builder_spec (messages : List GlobalPositionInt)
    (h : messages ≠ []) :
    (buildCommands messages).length = messages.length
      ∧ (∀ i : Nat, ∀ hi : i < messages.length,
          ∃ c : Command,
            (buildCommands messages)[i]? = some c
              ∧ c.x = (messages[i].lat : ℚ) / 1.0e7
              ∧ c.y = (messages[i].lon : ℚ) / 1.0e7
              ∧ c.z = 30.0
              ∧ c.frame = MAV_FRAME_GLOBAL_RELATIVE_ALT
              ∧ c.command = MAV_CMD_NAV_WAYPOINT) := by
  constructor
  · rw [buildCommands, List.length_map]
  · intro i hi
    refine ⟨commandOfMessage messages[i], ?_, rfl, rfl, rfl, rfl, rfl⟩
    rw [buildCommands, List.getElem?_map, List.getElem?_eq_getElem hi]
    rfl

/-- Closed instance of `mission_builder_spec` on a one-record list whose
recorded altitude (500) differs from the cruise constant. -/
theorem mission_builder_spec_witness :
    ∃ c : Command,
      (buildCommands [⟨700000000, 80000000, 500⟩])[0]? = some c
        ∧ c.x = ((700000000 : Int) : ℚ) / 1.0e7
        ∧ c.y = ((80000000 : Int) : ℚ) / 1.0e7
        ∧ c.z = 30.0
        ∧ c.frame = MAV_FRAME_GLOBAL_RELATIVE_ALT
        ∧ c.command = MAV_CMD_NAV_WAYPOINT := by
  obtain ⟨-, hfields⟩ :=
    mission_builder_spec [⟨700000000, 80000000, 500⟩] (by decide)
  exact hfields 0 (by decide)

/-- **C8**: `get_distance_metres` vanishes on equal arguments, is
symmetric, and is always non-negative (a scaled Euclidean norm of the
coordinate differences). -/
theorem geomath_distance_spec (a b : LocationGlobal) :
    get_distance_metres a a = 0
      ∧ get_distance_metres a b = get_distance_metres b a
      ∧ 0 ≤ get_distance_metres a b := by
  refine ⟨?_, ?_, ?_⟩
  · simp [get_distance_metres]
  · show Real.sqrt ((b.lat - a.lat) * (b.lat - a.lat)
          + (b.lon - a.lon) * (b.lon - a.lon)) * 1.113195e5
        = Real.sqrt ((a.lat - b.lat) * (a.lat - b.lat)
          + (a.lon - b.lon) * (a.lon - b.lon)) * 1.113195e5
    rw [show (b.lat - a.lat) * (b.lat - a.lat) + (b.lon - a.lon) * (b.lon - a.lon)
        = (a.lat - b.lat) * (a.lat - b.lat) + (a.lon - b.lon) * (a.lon - b.lon) by
      ring]
  · exact mul_nonneg (Real.sqrt_nonneg _) (by norm_num)

/-- **C5**: for an in-range cursor (at most the mission length, which holds
for every cursor the Vehicle Link can report), `distance_to_current_waypoint`
returns `none` exactly when the cursor is 0, and for every cursor ≥ 1 it
returns the non-negative planar distance from the current position to the
stored coordinates of the command at index `cursor - 1`. -/
theorem distance_to_current_waypoint_spec (cmds : List Command)
    (position : LocationGlobal) (nextwaypoint : Nat)
    (h : nextwaypoint ≤ cmds.length) :
    (distance_to_current_waypoint cmds position nextwaypoint = none
        ↔ nextwaypoint = 0)
      ∧ (∀ h1 : 1 ≤ nextwaypoint,
          distance_to_current_waypoint cmds position nextwaypoint
              = some (get_distance_metres position
                  (commandLocation (cmds.get ⟨nextwaypoint - 1, by omega⟩)))
            ∧ 0 ≤ get_distance_metres position
                (commandLocation (cmds.get ⟨nextwaypoint - 1, by omega⟩))) := by
  constructor
  · constructor
    · intro hnone
      by_contra hne
      rw [distance_to_current_waypoint, if_neg hne] at hnone
      have hlt : nextwaypoint - 1 < cmds.length := by omega
      rw [List.getElem?_eq_getElem hlt] at hnone
      simp at hnone
    · intro h0
      rw [distance_to_current_waypoint, if_pos h0]
  · intro h1
    have hne : nextwaypoint ≠ 0 := by omega
    have hlt : nextwaypoint - 1 < cmds.length := by omega
    constructor
    · rw [distance_to_current_waypoint, if_neg hne,
        List.getElem?_eq_getElem hlt]
      rfl
    · exact (geomath_distance_spec position _).2.2

/-- Closed instance of `distance_to_current_waypoint_spec`: a one-command
mission with cursor 1 yields the (non-negative) distance to that command's
stored coordinates. -/
theorem distance_to_current_waypoint_spec_witness :
    distance_to_current_waypoint [commandOfMessage ⟨0, 0, 0⟩] ⟨0, 0, 0⟩ 1
        = some (get_distance_metres ⟨0, 0, 0⟩
            (commandLocation (commandOfMessage ⟨0, 0, 0⟩)))
      ∧ 0 ≤ get_distance_metres ⟨0, 0, 0⟩
          (commandLocation (commandOfMessage ⟨0, 0, 0⟩)) := by
  obtain ⟨-, hpos⟩ :=
    distance_to_current_waypoint_spec [commandOfMessage ⟨0, 0, 0⟩]
      ⟨0, 0, 0⟩ 1 (by decide)
  exact hpos (by decide)

/-- **C6**: a log that yields zero usable position records (every decoded
message has latitude 0) makes the run exit at the empty-input check: the
waypoint list is empty and the main flow performs no link event at all —
no simulator start, no connect, no mission clear, add, or upload. -/
theorem empty_input_aborts_before_link (connectArg : Option String)
    (raw : List GlobalPositionInt)
    (h : raw.filter (fun m => decide (m.lat ≠ 0)) = []) :
    position_messages_from_tlog raw = []
      ∧ mainTrace connectArg raw = [] := by
  have h2 : position_messages_from_tlog raw = [] := by
    rw [position_messages_from_tlog, filter_position_messages, h]
    rfl
  refine ⟨h2, ?_⟩
  rw [mainTrace, h2]

/-- Closed instance of `empty_input_aborts_before_link` on a log whose only
record has latitude 0. -/
theorem empty_input_aborts_before_link_witness :
    position_messages_from_tlog [⟨0, 5, 7⟩] = []
      ∧ mainTrace none [⟨0, 5, 7⟩] = [] :=
  empty_input_aborts_before_link none [⟨0, 5, 7⟩] (by decide)

/-- **C10**: with no `--connect` target and at least one kept record, the
run starts the simulator with home exactly the first kept record's
fixed-point coordinates divided by `1e7` and then connects to it; and
`start_default_sitl` exits with code 1 when exactly one of the home
coordinates is supplied. -/
theorem sitl_home_spec (la lo : ℚ) (raw : List GlobalPositionInt)
    (m0 : GlobalPositionInt) (rest : List GlobalPositionInt)
    (h : position_messages_from_tlog raw = m0 :: rest) :
    start_default_sitl (some la) (some lo)
        = Except.ok (some (la, lo), "tcp:127.0.0.1:5760")
      ∧ start_default_sitl (some la) none = Except.error 1
      ∧ start_default_sitl none (some lo) = Except.error 1
      ∧ mainTrace none raw
          = LinkEvent.startSitl
                (some ((m0.lat : ℚ) / 1.0e7, (m0.lon : ℚ) / 1.0e7))
              :: LinkEvent.connect "tcp:127.0.0.1:5760"
              :: LinkEvent.clearMission
              :: ((buildCommands (m0 :: rest)).map LinkEvent.addCommand
                  ++ [LinkEvent.upload]) := by
  refine ⟨rfl, rfl, rfl, ?_⟩
  rw [mainTrace, h]
  simp [start_default_sitl]

/-- Closed instance of `sitl_home_spec`: a single kept record at fixed-point
(70°, 8°) starts the simulator with home `(70, 8)`, and supplying only a
latitude exits with code 1. -/
theorem sitl_home_spec_witness :
    start_default_sitl (some 7) none = Except.error 1
      ∧ mainTrace none [⟨700000000, 80000000, 5⟩]
          = LinkEvent.startSitl
                (some (((700000000 : Int) : ℚ) / 1.0e7,
                  ((80000000 : Int) : ℚ) / 1.0e7))
              :: LinkEvent.connect "tcp:127.0.0.1:5760"
              :: LinkEvent.clearMission
              :: ((buildCommands [⟨700000000, 80000000, 5⟩]).map
                    LinkEvent.addCommand
                  ++ [LinkEvent.upload]) := by
  obtain ⟨-, herr, -, htrace⟩ :=
    sitl_home_spec 7 7 [⟨700000000, 80000000, 5⟩] ⟨700000000, 80000000, 5⟩ []
      (by decide)
  exact ⟨herr, htrace⟩

/-! ### Monitoring-loop structure -/

/-- If the cursor first reaches the mission length at time `t0` within the
remaining budget, the loop polls at `t, …, t0 - 1` and exits at `t0`,
then requests RTL. -/
lemma monitorGo_hit (cursor : Nat → Nat) (len : Nat) :
    ∀ fuel t t0, t ≤ t0 → t0 < t + fuel → cursor t0 = len →
      (∀ s, t ≤ s → s < t0 → cursor s ≠ len) →
      monitorGo cursor len fuel t
        = (List.range' t (t0 - t)).map CtrlEvent.poll
            ++ [CtrlEvent.exitMonitor t0, CtrlEvent.requestRTL] := by
  intro fuel
  induction fuel with
  | zero => intro t t0 h1 h2 _ _; omega
  | succ fuel ih =>
    intro t t0 h1 h2 hhit hmin
    rw [monitorGo]
    by_cases ht : cursor t = len
    · have ht0 : t0 = t := by
        by_contra hne
        exact hmin t le_rfl (by omega) ht
      subst ht0
      rw [if_pos ht]
      simp
    · rw [if_neg ht]
      have htlt : t < t0 := by
        rcases Nat.eq_or_lt_of_le h1 with he | hl
        · exact absurd (he ▸ hhit) ht
        · exact hl
      rw [ih (t + 1) t0 (by omega) (by omega) hhit
        (fun s hs1 hs2 => hmin s (by omega) hs2)]
      have hr : t0 - t = (t0 - (t + 1)) + 1 := by omega
      rw [hr, List.range'_succ]
      simp

/-- If the cursor never reaches the mission length within the remaining
budget, the loop polls through the whole budget, exits when it expires,
and requests RTL. -/
lemma monitorGo_miss (cursor : Nat → Nat) (len : Nat) :
    ∀ fuel t, (∀ s, t ≤ s → s < t + fuel → cursor s ≠ len) →
      monitorGo cursor len fuel t
        = (List.range' t fuel).map CtrlEvent.poll
            ++ [CtrlEvent.exitMonitor (t + fuel), CtrlEvent.requestRTL] := by
  intro fuel
  induction fuel with
  | zero =>
    intro t _
    rw [monitorGo]
    simp
  | succ fuel ih =>
    intro t hmiss
    rw [monitorGo, if_neg (hmiss t le_rfl (by omega))]
    rw [ih (t + 1) (fun s hs1 hs2 => hmiss s (by omega) (by omega))]
    rw [List.range'_succ]
    have hr : t + (fuel + 1) = t + 1 + fuel := by omega
    rw [hr]
    simp

/-- **C7**: in the monitoring loop, if the cursor first equals the mission
length at some poll `t0` before the 60-unit budget elapses, the loop polls
at `0, …, t0 - 1`, exits early at `t0`, and the controller then requests
RTL; if the cursor never equals the mission length within the budget, the
loop performs all 60 polls, exits when the budget expires, and the
controller then requests RTL. -/
theorem monitoring_loop_spec (cursor : Nat → Nat) (missionLen : Nat) :
    (∀ t0 : Nat, t0 < 60 → cursor t0 = missionLen →
        (∀ s : Nat, s < t0 → cursor s ≠ missionLen) →
        monitorEvents cursor missionLen
          = (List.range t0).map CtrlEvent.poll
              ++ [CtrlEvent.exitMonitor t0, CtrlEvent.requestRTL])
      ∧ ((∀ t : Nat, t < 60 → cursor t ≠ missionLen) →
          monitorEvents cursor missionLen
            = (List.range 60).map CtrlEvent.poll
                ++ [CtrlEvent.exitMonitor 60, CtrlEvent.requestRTL]) := by
  constructor
  · intro t0 hlt hhit hmin
    rw [monitorEvents,
      monitorGo_hit cursor missionLen 60 0 t0 (by omega) (by omega) hhit
        (fun s _ hs2 => hmin s hs2)]
    rw [List.range_eq_range']
    simp
  · intro hmiss
    rw [monitorEvents,
      monitorGo_miss cursor missionLen 60 0 (fun s _ hs2 => hmiss s (by omega))]
    rw [List.range_eq_range']

/-- Closed instances of `monitoring_loop_spec`: a cursor that reaches the
mission length (5) at elapsed time 30 makes the loop exit early at 30 and
request RTL; a cursor stuck at 0 makes the loop run all 60 polls and then
request RTL. -/
theorem monitoring_loop_spec_witness :
    (monitorEvents (fun t => if t < 30 then 0 else 5) 5
        = (List.range 30).map CtrlEvent.poll
            ++ [CtrlEvent.exitMonitor 30, CtrlEvent.requestRTL])
      ∧ (monitorEvents (fun _ => 0) 5
          = (List.range 60).map CtrlEvent.poll
              ++ [CtrlEvent.exitMonitor 60, CtrlEvent.requestRTL]) := by
  constructor
  · exact (monitoring_loop_spec (fun t => if t < 30 then 0 else 5) 5).1 30
      (by decide) (by decide) (by decide)
  · exact (monitoring_loop_spec (fun _ => 0) 5).2 (fun t _ => by decide)

/-- Any number of polls of a loop whose exit condition is never observed
leaves the loop unexited. -/
lemma pollLoop_never_exits (ok : Nat → Bool) (h : ∀ i, ok i = false)
    (n : Nat) : pollLoopExitsWithin ok n = false := by
  rw [pollLoopExitsWithin, List.any_eq_false]
  intro i _
  simp [h i]

/-- **C9**: none of the request-and-poll phases has a timeout: if the
Vehicle Link never reports the requested state — mode GUIDED, armed,
altitude at least 0.95 of target, mode AUTO, or mode RTL — the
corresponding loop has not exited after any number of polls, so the run
never advances past that phase. -/
theorem untimed_poll_loops_never_exit (tel : VehicleTelemetry) :
    ((∀ i, guidedOk tel i = false) →
        ∀ n : Nat, pollLoopExitsWithin (guidedOk tel) n = false)
      ∧ ((∀ i, armedOk tel i = false) →
          ∀ n : Nat, pollLoopExitsWithin (armedOk tel) n = false)
      ∧ ((∀ i, altOk tel i = false) →
          ∀ n : Nat, pollLoopExitsWithin (altOk tel) n = false)
      ∧ ((∀ i, autoOk tel i = false) →
          ∀ n : Nat, pollLoopExitsWithin (autoOk tel) n = false)
      ∧ ((∀ i, rtlOk tel i = false) →
          ∀ n : Nat, pollLoopExitsWithin (rtlOk tel) n = false) :=
  ⟨fun h n => pollLoop_never_exits _ h n,
    fun h n => pollLoop_never_exits _ h n,
    fun h n => pollLoop_never_exits _ h n,
    fun h n => pollLoop_never_exits _ h n,
    fun h n => pollLoop_never_exits _ h n⟩

/-- Closed instance of `untimed_poll_loops_never_exit`: telemetry stuck in
STABILIZE, disarmed, on the ground, never exits any of the five loops even
after 1000 polls. -/
theorem untimed_poll_loops_never_exit_witness :
    pollLoopExitsWithin
        (guidedOk ⟨fun _ => "STABILIZE", fun _ => false, fun _ => 0, fun _ => 0⟩)
        1000 = false
      ∧ pollLoopExitsWithin
          (armedOk ⟨fun _ => "STABILIZE", fun _ => false, fun _ => 0, fun _ => 0⟩)
          1000 = false
      ∧ pollLoopExitsWithin
          (altOk ⟨fun _ => "STABILIZE", fun _ => false, fun _ => 0, fun _ => 0⟩)
          1000 = false := by
  obtain ⟨hg, ha, halt, -, -⟩ := untimed_poll_loops_never_exit
    ⟨fun _ => "STABILIZE", fun _ => false, fun _ => 0, fun _ => 0⟩
  refine ⟨hg (fun i => rfl) 1000, ha (fun i => rfl) 1000, halt ?_ 1000⟩
  intro i
  show decide ((0 : ℚ) ≥ aTargetAltitude * 0.95) = false
  have hlt : ¬ ((0 : ℚ) ≥ aTargetAltitude * 0.95) := by
    rw [aTargetAltitude]
    norm_num
  exact decide_eq_false hlt
